import Mathlib

/-!
Shallow embedding of `trytravis.py` (SethMichaelLarson/throwaway).

The program has two parts that the claims are about:

* `TryTravis.start` / `TryTravis._load_trytravis_github_slug` /
  `TryTravis._submit_project_to_github`: the transient-branch git workflow
  (lines 73-107 of `trytravis.py`);
* `main`: the command-line dispatch and the `--repo` configuration step
  (lines 114-191 of `trytravis.py`).

Git is modelled as an explicit repository state (list of branch names, the
active branch name, an association list of remotes) plus a trace of the git
commands the workflow issued.  Outcomes that depend on the environment
(whether `git commit` finds anything to commit, whether the network push
succeeds, the current millisecond clock) are inputs of the model, gathered
in `Env`.  Python exceptions become an `Option PyErr` result; the
`try/finally` and `try/except: pass` blocks are translated by explicitly
sequencing the cleanup code on every path, exactly as Python runs it.
-/

namespace TryTravisModel

/-- Python exception classes that the program can raise or leak.
`runtimeError` carries the message; `nameError` models Python's
`UnboundLocalError`/`NameError` for a read of an unassigned local variable. -/
inductive PyErr where
  | runtimeError (msg : String)
  | gitCommandError
  | nameError
  | notImplementedError
deriving Repr, DecidableEq

/-- State of the local git repository: the existing branch names, the name of
the currently checked-out (active) branch, and the configured remotes as
`(name, url)` pairs. -/
structure GitRepo where
  branches : List String
  active : String
  remotes : List (String × String)
deriving Repr, DecidableEq

/-- One git command issued by the workflow, recorded in a trace so that the
theorems can talk about which operations were attempted. -/
inductive GitEvent where
  | checkoutNew (name : String)
  | addAll
  | commit (msg : String)
  | remoteAdd (name url : String)
  | push (remoteName : String)
  | remoteDeleteAttempt (name : String)
  | checkout (name : String)
deriving Repr, DecidableEq

abbrev Trace := List GitEvent

/-- Environment-dependent inputs of one submission run: the value of
`int(time.time() * 1000)`, whether `git commit` succeeds (it fails when the
working tree has nothing to commit), and whether the network push succeeds. -/
structure Env where
  nowMillis : Nat
  commitOk : Bool
  pushOk : Bool
deriving Repr, DecidableEq

/-- Result of the submission workflow: the exception that escaped (if any),
the final repository state, and the trace of issued git commands. -/
structure SubmitResult where
  err : Option PyErr
  repo : GitRepo
  trace : Trace
deriving Repr, DecidableEq

/-- The fixed remote name `'trytravis'` (line 95 of `trytravis.py`). -/
def remoteName : String := "trytravis"

/-- The fixed commit message `m='trytravis'` (line 93 of `trytravis.py`). -/
def commitMsg : String := "trytravis"

/-- `new_branch = 'trytravis-' + str(int(time.time() * 1000))` (line 90). -/
def newBranchName (env : Env) : String :=
  ("trytravis-") ++ toString env.nowMillis

/-- `'https://github.com/' + self.slug` (line 95).  Note the trailing slash of
the literal: with a stored slug `/owner/name` the URL contains `//`. -/
def remoteUrl (slug : String) : String :=
  ("https://github.com/") ++ slug

/-- Effect of `repo.git.checkout('HEAD', b=new_branch)` on the repository:
the new branch is created and becomes active. -/
def checkoutNewStep (env : Env) (r : GitRepo) : GitRepo :=
  { r with branches := newBranchName env :: r.branches, active := newBranchName env }

/-- Whether a remote named `trytravis` already exists, which makes
`repo.create_remote('trytravis', ...)` raise. -/
def hasTryTravisRemote (r : GitRepo) : Bool :=
  r.remotes.any (fun p => p.1 == remoteName)

/-- Effect of `repo.create_remote('trytravis', url)` when it succeeds. -/
def addRemoteStep (slug : String) (r : GitRepo) : GitRepo :=
  { r with remotes := (remoteName, remoteUrl slug) :: r.remotes }

/-- Effect of `repo.delete_remote('trytravis')`; deleting a remote that does
not exist raises, but the caller suppresses that error, so the combined
effect is a filter. -/
def deleteRemoteStep (r : GitRepo) : GitRepo :=
  { r with remotes := r.remotes.filter (fun p => p.1 != remoteName) }

/-- The `try` block of `_submit_project_to_github` (lines 90-98):
checkout a fresh branch, `git add --all`, `git commit -m trytravis`,
`create_remote` guarded by a bare `except: pass`, then `remote.push()`.
When `create_remote` raised, the local variable `remote` was never assigned,
so `remote.push()` raises a `NameError` instead of pushing. -/
def submitBody (env : Env) (slug : String) (r0 : GitRepo) : SubmitResult :=
  if newBranchName env ∈ r0.branches then
    { err := some PyErr.gitCommandError, repo := r0, trace := [] }
  else if !env.commitOk then
    { err := some PyErr.gitCommandError, repo := checkoutNewStep env r0,
      trace := [GitEvent.checkoutNew (newBranchName env), GitEvent.addAll] }
  else if hasTryTravisRemote r0 then
    { err := some PyErr.nameError, repo := checkoutNewStep env r0,
      trace := [GitEvent.checkoutNew (newBranchName env), GitEvent.addAll,
                GitEvent.commit commitMsg] }
  else if !env.pushOk then
    { err := some PyErr.gitCommandError,
      repo := addRemoteStep slug (checkoutNewStep env r0),
      trace := [GitEvent.checkoutNew (newBranchName env), GitEvent.addAll,
                GitEvent.commit commitMsg,
                GitEvent.remoteAdd remoteName (remoteUrl slug)] }
  else
    { err := none,
      repo := addRemoteStep slug (checkoutNewStep env r0),
      trace := [GitEvent.checkoutNew (newBranchName env), GitEvent.addAll,
                GitEvent.commit commitMsg,
                GitEvent.remoteAdd remoteName (remoteUrl slug),
                GitEvent.push remoteName] }

/-- The `finally` block of `_submit_project_to_github` (lines 99-104):
delete the `trytravis` remote with errors suppressed, then
`repo.git.checkout(old_branch)`.  If that final checkout raises (the branch
does not exist), its exception replaces the pending one, as in Python. -/
def submitFinally (old : String) (res : SubmitResult) : SubmitResult :=
  if old ∈ (deleteRemoteStep res.repo).branches then
    { err := res.err,
      repo := { deleteRemoteStep res.repo with active := old },
      trace := res.trace ++ [GitEvent.remoteDeleteAttempt remoteName,
                             GitEvent.checkout old] }
  else
    { err := some PyErr.gitCommandError,
      repo := deleteRemoteStep res.repo,
      trace := res.trace ++ [GitEvent.remoteDeleteAttempt remoteName] }

/-- `TryTravis._submit_project_to_github` (lines 86-104): read the active
branch as `old_branch`, run the body, and always run the `finally` cleanup. -/
def submitProject (env : Env) (slug : String) (r0 : GitRepo) : SubmitResult :=
  submitFinally r0.active (submitBody env slug r0)

/-- The message of the `RuntimeError` raised by
`_load_trytravis_github_slug` (line 84). -/
def configMissingMsg : String :=
  "Could not find your repository. Have you ran `trytravis --repo`?"

/-- `TryTravis._load_trytravis_github_slug` (lines 79-84): read the slug file,
raising a `RuntimeError` when the file is absent or unreadable.  The
configuration store is modelled as `Option String`. -/
def loadSlug (config : Option String) : Except PyErr String :=
  match config with
  | some s => Except.ok s
  | none => Except.error (PyErr.runtimeError configMissingMsg)

/-- `TryTravis._wait_for_travis_build` (lines 106-107) raises
`NotImplementedError` unconditionally, so a submission that got through
`_submit_project_to_github` without an exception still ends in an error. -/
def afterSubmit (res : SubmitResult) : SubmitResult :=
  match res.err with
  | some _ => res
  | none => { res with err := some PyErr.notImplementedError }

/-- `TryTravis.start` (lines 73-77): load the slug (raising before any git
mutation when it is missing), submit, then hit the unimplemented
build-waiting step. -/
def tryTravisStart (env : Env) (config : Option String) (r0 : GitRepo) :
    SubmitResult :=
  match loadSlug config with
  | Except.error e => { err := some e, repo := r0, trace := [] }
  | Except.ok slug => afterSubmit (submitProject env slug r0)

/-- Python `str.strip()` on the character list of a string (ASCII whitespace;
the inputs the program meets are ASCII). -/
def pyStrip (cs : List Char) : List Char :=
  ((cs.dropWhile Char.isWhitespace).reverse.dropWhile Char.isWhitespace).reverse

/-- Python `str.strip()` as a `String` function (`url = url.strip()`,
line 162 of `trytravis.py`). -/
def pyStripS (s : String) : String := String.mk (pyStrip s.data)

/-- Python `str.lower()` (ASCII case folding, which covers the answers the
confirmation prompt compares against). -/
def pyLower (s : String) : String := String.mk (s.data.map Char.toLower)

/-- Consume a literal character sequence from the front of a list, returning
the rest on success. -/
def dropLit : List Char → List Char → Option (List Char)
  | [], s => some s
  | _, [] => none
  | c :: p, d :: s => if c = d then dropLit p s else none

/-- Split `cs` as `owner ++ '/' :: repo` where neither side contains a `'/'`
and `repo` is nonempty; this is the backtracking-free meaning of the suffix
`([^/]+)/([^/]+)$` of the repository regex.  A leading `'/'` yields an empty
owner, which the caller rejects. -/
def ownerRepoSplit : List Char → Option (List Char × List Char)
  | [] => none
  | c :: rest =>
    if c = '/' then
      if rest ≠ [] ∧ '/' ∉ rest then some ([], rest) else none
    else
      match ownerRepoSplit rest with
      | some (a, b) => some (c :: a, b)
      | none => none

/-- The regex `^https://(?:www\.)?github.com/([^/]+)/([^/]+)$` of line 163,
decided over a character list.  The dot of `github.com` is unescaped in the
source, so it matches any character except a newline; the optional `www.`
group is deterministic because a string starting with `www.` can never match
the no-`www.` alternative (`g` vs `w`). -/
def githubUrlMatchL (cs : List Char) : Option (List Char × List Char) :=
  match dropLit ("https://").data cs with
  | none => none
  | some r1 =>
    match
      (match dropLit ("www.").data r1 with
       | some x => x
       | none => r1) with
    | r2 =>
      match dropLit ("github").data r2 with
      | none => none
      | some r3 =>
        match r3 with
        | [] => none
        | c :: r4 =>
          if c = '\n' then none
          else
            match dropLit ("com/").data r4 with
            | none => none
            | some r5 =>
              match ownerRepoSplit r5 with
              | some (a, b) => if a ≠ [] then some (a, b) else none
              | none => none

/-- `re.match(r'^https://(?:www\.)?github.com/([^/]+)/([^/]+)$', url)` with
the two capture groups (line 163 of `trytravis.py`). -/
def githubUrlMatch (url : String) : Option (String × String) :=
  match githubUrlMatchL url.data with
  | some (a, b) => some (String.mk a, String.mk b)
  | none => none

/-- `'/%s/%s' % (author, name)`: the slug string written to the
configuration file (line 180 of `trytravis.py`). -/
def slugOf (author name : String) : String :=
  (("/") ++ author) ++ (("/") ++ name)

/-- The two interactive inputs `main` may read: the URL typed at the
repository prompt and the answer typed at the confirmation prompt. -/
structure Stdin where
  url : String
  accept : String
deriving Repr, DecidableEq

/-- Observable outcome of one `main` invocation: the process exit code, the
configuration file contents afterwards, the final repository state, which
messages were printed, whether the confirmation prompt was shown, and the
trace of git commands issued by a submission. -/
structure MainResult where
  exitCode : Nat
  config : Option String
  repo : GitRepo
  helpPrinted : Bool := false
  versionPrinted : Bool := false
  savedPrinted : Bool := false
  errorPrinted : Bool := false
  promptedConfirm : Bool := false
  trace : Trace := []
deriving Repr, DecidableEq

/-- The body of the `--repo` branch of `main` (lines 157-181): strip the URL
(taken from `argv[1]` when present, otherwise from the prompt), match it
against the repository regex, raise a `RuntimeError` on no match, otherwise
prompt for confirmation, raise a `RuntimeError` unless the lowercased answer
is `y` or `yes`, and only then write the slug to the configuration file. -/
def repoConfigUrl (url accept : String) (cfg : Option String)
    (repo : GitRepo) : MainResult :=
  match githubUrlMatch (pyStripS url) with
  | none => { exitCode := 1, config := cfg, repo := repo, errorPrinted := true }
  | some (author, name) =>
    if pyLower accept ∈ [("y"), ("yes")] then
      { exitCode := 0, config := some (slugOf author name), repo := repo,
        savedPrinted := true, promptedConfirm := true }
    else
      { exitCode := 1, config := cfg, repo := repo, errorPrinted := true,
        promptedConfirm := true }

/-- The `--repo` branch entry: the URL comes from `argv[1]` when a second
argument is present, otherwise from the interactive prompt. -/
def repoConfigStep (stdin : Stdin) (urlArg : Option String)
    (cfg : Option String) (repo : GitRepo) : MainResult :=
  repoConfigUrl (match urlArg with | some u => u | none => stdin.url)
    stdin.accept cfg repo

/-- Whether an escaped exception is a `RuntimeError`; only those are caught
and printed by `main` (line 187), anything else leaks as a traceback. -/
def isRuntimeErr : Option PyErr → Bool
  | some (PyErr.runtimeError _) => true
  | _ => false

/-- The no-argument branch of `main` (lines 184-186): run the submission
workflow; a `RuntimeError` is printed with an `ERROR:` prefix and exits 1,
any other exception leaks as an uncaught traceback (also terminating with a
nonzero status), success exits 0. -/
def runSubmit (env : Env) (cfg : Option String) (repo : GitRepo) : MainResult :=
  match tryTravisStart env cfg repo with
  | res =>
    match res.err with
    | none => { exitCode := 0, config := cfg, repo := res.repo, trace := res.trace }
    | some e =>
      { exitCode := 1, config := cfg, repo := res.repo,
        errorPrinted := isRuntimeErr (some e), trace := res.trace }

/-- The single-argument dispatch of `main` (lines 128-181): help, version,
repository configuration, or silent fall-through (as happens for the
`--token` flags, which have no handler). -/
def argDispatch (stdin : Stdin) (argv : List String)
    (cfg : Option String) (repo : GitRepo) : MainResult :=
  if argv.headD ("") ∈ [("-h"), ("--help"), ("-H")] then
    { exitCode := 0, config := cfg, repo := repo, helpPrinted := true }
  else if argv.headD ("") ∈ [("-v"), ("--version"), ("-V")] then
    { exitCode := 0, config := cfg, repo := repo, versionPrinted := true }
  else if argv.headD ("") ∈ [("-r"), ("--repo"), ("-R")] then
    repoConfigStep stdin
      (if argv.length = 2 then some (argv.getD 1 ("")) else none) cfg repo
  else
    { exitCode := 0, config := cfg, repo := repo }

/-- `main(argv)` (lines 114-191).  `token_input_argv` is true only for a
two-element `argv` whose first element is one of `--token`, `-t`, `-T`; any
other multi-argument call runs `main(['--help'])`, which prints the help
text and exits 0 before anything else happens.  A single argument (or a
token pair) goes through the dispatch, and an empty `argv` submits. -/
def mainRun (env : Env) (stdin : Stdin) (argv : List String)
    (cfg : Option String) (repo : GitRepo) : MainResult :=
  if 1 < argv.length ∧
      ¬ (argv.length = 2 ∧ argv.headD ("") ∈ [("--token"), ("-t"), ("-T")]) then
    { exitCode := 0, config := cfg, repo := repo, helpPrinted := true }
  else if argv.length = 1 ∨
      (argv.length = 2 ∧ argv.headD ("") ∈ [("--token"), ("-t"), ("-T")]) then
    argDispatch stdin argv cfg repo
  else
    runSubmit env cfg repo

/-! Concrete inputs used by the witness and counterexample theorems. -/

/-- A concrete environment: clock at `1234` ms, the working tree has
something to commit, the network push succeeds. -/
def envA : Env := { nowMillis := 1234, commitOk := true, pushOk := true }

/-- A concrete repository on branch `master` with no remotes. -/
def repoA : GitRepo :=
  { branches := [("master")], active := "master", remotes := [] }

/-- A concrete repository that already has a remote named `trytravis`. -/
def repoWithRemote : GitRepo :=
  { branches := [("master")], active := "master",
    remotes := [(("trytravis"), ("https://github.com/old/url"))] }

/-- The slug stored after configuring `https://github.com/octocat/hello-world`. -/
def slugA : String := "/octocat/hello-world"

/-- Interactive inputs: a valid GitHub URL at the prompt, answer `YES`. -/
def stdinGood : Stdin :=
  { url := "https://github.com/octocat/hello-world", accept := "YES" }

/-- Interactive inputs: a GitLab URL at the prompt, answer `y`. -/
def stdinGitlab : Stdin := { url := "https://gitlab.com/x/y", accept := "y" }

/-- A valid GitHub URL surrounded by whitespace, as typed at the prompt. -/
def spacedUrl : String := " https://github.com/octocat/hello-world"

/-! Helper lemmas about the submission workflow. -/

/-- The body of the submission only ever adds branches, so every branch of
the initial repository is still present afterwards. -/
lemma mem_branches_submitBody (env : Env) (slug : String) (r0 : GitRepo)
    (x : String) (hx : x ∈ r0.branches) :
    x ∈ (submitBody env slug r0).repo.branches := by
  unfold submitBody
  split
  · exact hx
  · split
    · exact List.mem_cons_of_mem _ hx
    · split
      · exact List.mem_cons_of_mem _ hx
      · split
        · exact List.mem_cons_of_mem _ hx
        · exact List.mem_cons_of_mem _ hx

/-- When the original active branch still exists, the final cleanup checkout
succeeds, so the workflow's escaped exception is exactly the body's. -/
lemma submitProject_err (env : Env) (slug : String) (r0 : GitRepo)
    (hwf : r0.active ∈ r0.branches) :
    (submitProject env slug r0).err = (submitBody env slug r0).err := by
  unfold submitProject submitFinally
  split
  · rfl
  · exact absurd (mem_branches_submitBody env slug r0 r0.active hwf)
      (by assumption)

/-- When the original active branch still exists, the final cleanup checkout
restores it. -/
lemma submitProject_active (env : Env) (slug : String) (r0 : GitRepo)
    (hwf : r0.active ∈ r0.branches) :
    (submitProject env slug r0).repo.active = r0.active := by
  unfold submitProject submitFinally
  split
  · rfl
  · exact absurd (mem_branches_submitBody env slug r0 r0.active hwf)
      (by assumption)

/-- The workflow's trace is the body's trace followed by the cleanup events,
whether or not the final checkout succeeded. -/
lemma submitProject_trace (env : Env) (slug : String) (r0 : GitRepo) :
    (submitProject env slug r0).trace =
        (submitBody env slug r0).trace ++
          [GitEvent.remoteDeleteAttempt remoteName, GitEvent.checkout r0.active] ∨
      (submitProject env slug r0).trace =
        (submitBody env slug r0).trace ++
          [GitEvent.remoteDeleteAttempt remoteName] := by
  unfold submitProject submitFinally
  split
  · left; rfl
  · right; rfl

/-- `afterSubmit` never changes the repository state. -/
lemma afterSubmit_repo (res : SubmitResult) : (afterSubmit res).repo = res.repo := by
  unfold afterSubmit
  split <;> rfl

/-- `afterSubmit` never changes the trace. -/
lemma afterSubmit_trace (res : SubmitResult) :
    (afterSubmit res).trace = res.trace := by
  unfold afterSubmit
  split <;> rfl

/-- A submission that escaped no exception still ends in
`NotImplementedError` from the build-waiting stub. -/
lemma afterSubmit_err_none (res : SubmitResult) (h : res.err = none) :
    (afterSubmit res).err = some PyErr.notImplementedError := by
  unfold afterSubmit
  split <;> simp_all

/-- With a configured slug, `start` is the submission followed by the
unimplemented build-waiting step. -/
lemma tryTravisStart_some (env : Env) (slug : String) (r0 : GitRepo) :
    tryTravisStart env (some slug) r0 = afterSubmit (submitProject env slug r0) := rfl

/-- A `push` event in the body's trace only occurs on the all-success path,
where the body escapes no exception. -/
lemma push_mem_submitBody (env : Env) (slug : String) (r0 : GitRepo)
    (h : GitEvent.push remoteName ∈ (submitBody env slug r0).trace) :
    (submitBody env slug r0).err = none := by
  unfold submitBody at h ⊢
  split at h
  · simp at h
  · split at h
    · simp at h
    · split at h
      · simp at h
      · split at h
        · simp at h
        · simp_all

/-- On the path that reaches the push (fresh branch name, committable tree,
no pre-existing `trytravis` remote), the body's trace is the full command
sequence, with the `push` event present exactly when the push succeeds. -/
lemma submitBody_trace_success (env : Env) (slug : String) (r0 : GitRepo)
    (h1 : newBranchName env ∉ r0.branches)
    (h2 : env.commitOk = true)
    (h3 : hasTryTravisRemote r0 = false) :
    (submitBody env slug r0).trace =
      [GitEvent.checkoutNew (newBranchName env), GitEvent.addAll,
       GitEvent.commit commitMsg,
       GitEvent.remoteAdd remoteName (remoteUrl slug)] ++
        (if env.pushOk then [GitEvent.push remoteName] else []) := by
  unfold submitBody
  rw [if_neg h1, h2, h3]
  cases hp : env.pushOk <;> simp

/-- Every argv form that selects the repository-configuration branch of
`main` runs `repoConfigStep` with the URL taken from the prompt. -/
lemma mainRun_repoArg (env : Env) (stdin : Stdin) (cfg : Option String)
    (r : GitRepo) (arg : String)
    (harg : arg ∈ [("-r"), ("--repo"), ("-R")]) :
    mainRun env stdin [arg] cfg r = repoConfigUrl stdin.url stdin.accept cfg r := by
  have h : arg = ("-r") ∨ arg = ("--repo") ∨ arg = ("-R") := by simpa using harg
  rcases h with rfl | rfl | rfl <;> rfl

/-! Claim theorems. -/

/-- C1: for every call to the submission workflow on a repository whose
active branch can be read (modelled as: the active branch is a real branch
of the repository, i.e. `HEAD` is not detached), the repository's active
branch after `start` returns or raises equals the branch active before the
call, on the success path and on every error path (any combination of
commit/push outcomes, clock value and configuration contents). -/
theorem submit_restores_original_branch (env : Env) (cfg : Option String)
    (r0 : GitRepo) (hwf : r0.active ∈ r0.branches) :
    (tryTravisStart env cfg r0).repo.active = r0.active := by
  cases cfg with
  | none => rfl
  | some slug =>
    rw [tryTravisStart_some, afterSubmit_repo]
    exact submitProject_active env slug r0 hwf

/-- Witness for C1 at a concrete input: repository on `master`, valid slug,
all git operations succeeding. -/
theorem submit_restores_original_branch_witness :
    repoA.active ∈ repoA.branches ∧
      (tryTravisStart envA (some slugA) repoA).repo.active = repoA.active :=
  ⟨by decide, submit_restores_original_branch envA (some slugA) repoA (by decide)⟩

/-- C2: after the transient-branch workflow completes — whether its body
returned normally or raised at any step — no remote named `trytravis`
remains in the repository, and the deletion of that remote was attempted on
every path. -/
theorem submit_removes_trytravis_remote (env : Env) (slug : String)
    (r0 : GitRepo) :
    (∀ p ∈ (submitProject env slug r0).repo.remotes, p.1 ≠ remoteName) ∧
      GitEvent.remoteDeleteAttempt remoteName ∈
        (submitProject env slug r0).trace := by
  constructor
  · intro p hp
    unfold submitProject submitFinally deleteRemoteStep at hp
    split at hp <;>
    · simp only [List.mem_filter] at hp
      simpa using hp.2
  · unfold submitProject submitFinally
    split <;> simp

/-- C3 (code bug): when a remote named `trytravis` already exists, the
creation step's exception is suppressed by the bare `except: pass`, but the
local variable `remote` is then never assigned, so `remote.push()` raises an
unbound-local-variable error instead of proceeding: the run fails and no
push happens (the cleanup still runs).  This contradicts the claimed
idempotent creation. -/
theorem existing_remote_causes_unbound_push_error :
    (submitProject envA slugA repoWithRemote).err = some PyErr.nameError ∧
      GitEvent.push remoteName ∉ (submitProject envA slugA repoWithRemote).trace := by
  decide

/-- C4 (counterexample): with the configured slug `/octocat/hello-world` the
remote actually added points at `https://github.com//octocat/hello-world`
(the literal `'https://github.com/'` concatenated with the slug, which
itself starts with `/`), not at the claimed
`https://github.com/octocat/hello-world`. -/
theorem remote_url_double_slash_cx :
    GitEvent.remoteAdd remoteName ("https://github.com//octocat/hello-world") ∈
        (submitProject envA slugA repoA).trace ∧
      GitEvent.remoteAdd remoteName ("https://github.com/octocat/hello-world") ∉
        (submitProject envA slugA repoA).trace := by
  decide

/-- C4 (amended): on every run with slug `/octocat/hello-world` that reaches
the remote-creation step (fresh branch name, committable tree, no
pre-existing `trytravis` remote), the transient branch created is named
`trytravis-` followed by the millisecond timestamp, and the remote added is
named `trytravis` and points at `https://github.com//octocat/hello-world`. -/
theorem transient_branch_and_remote_url (env : Env) (r0 : GitRepo)
    (h1 : newBranchName env ∉ r0.branches)
    (h2 : env.commitOk = true)
    (h3 : hasTryTravisRemote r0 = false) :
    GitEvent.checkoutNew (("trytravis-") ++ toString env.nowMillis) ∈
        (submitProject env slugA r0).trace ∧
      GitEvent.remoteAdd ("trytravis") ("https://github.com//octocat/hello-world") ∈
        (submitProject env slugA r0).trace := by
  have hu : ("https://github.com//octocat/hello-world") = remoteUrl slugA := rfl
  have hn : ("trytravis-") ++ toString env.nowMillis = newBranchName env := rfl
  have hr : ("trytravis") = remoteName := rfl
  have ht := submitBody_trace_success env slugA r0 h1 h2 h3
  rcases submitProject_trace env slugA r0 with h | h <;>
    (rw [h, ht, hu, hn, hr]
     constructor <;> simp)

/-- Witness for C4 (amended) at a concrete input. -/
theorem transient_branch_and_remote_url_witness :
    GitEvent.checkoutNew (("trytravis-") ++ toString envA.nowMillis) ∈
        (submitProject envA slugA repoA).trace ∧
      GitEvent.remoteAdd ("trytravis") ("https://github.com//octocat/hello-world") ∈
        (submitProject envA slugA repoA).trace :=
  transient_branch_and_remote_url envA repoA (by decide) (by decide) (by decide)

/-- C8: with the slug configuration absent, `start` raises the configuration
`RuntimeError` immediately: the repository state is returned unchanged and
no git command at all was issued — in particular no transient branch was
created. -/
theorem missing_config_raises_without_mutation (env : Env) (r0 : GitRepo) :
    tryTravisStart env none r0 =
      { err := some (PyErr.runtimeError configMissingMsg), repo := r0,
        trace := [] } := rfl

/-- C9: on every run where the push was actually performed (a `push` event is
in the trace), the operation still ends in `NotImplementedError` from the
unconditional build-waiting stub, so a fully successful submission never
returns normally. -/
theorem successful_push_raises_unimplemented (env : Env) (cfg : Option String)
    (r0 : GitRepo) (hwf : r0.active ∈ r0.branches)
    (hpush : GitEvent.push remoteName ∈ (tryTravisStart env cfg r0).trace) :
    (tryTravisStart env cfg r0).err = some PyErr.notImplementedError := by
  cases cfg with
  | none => exact absurd hpush (List.not_mem_nil _)
  | some slug =>
    rw [tryTravisStart_some] at hpush ⊢
    rw [afterSubmit_trace] at hpush
    have h2 : GitEvent.push remoteName ∈ (submitBody env slug r0).trace := by
      rcases submitProject_trace env slug r0 with h | h <;>
        (rw [h] at hpush; simpa using hpush)
    exact afterSubmit_err_none _
      ((submitProject_err env slug r0 hwf).trans (push_mem_submitBody env slug r0 h2))

/-- Witness for C9 at a concrete all-success run. -/
theorem successful_push_raises_unimplemented_witness :
    (tryTravisStart envA (some slugA) repoA).err = some PyErr.notImplementedError :=
  successful_push_raises_unimplemented envA (some slugA) repoA (by decide) (by decide)

/-- C5 (code bug): invoking the CLI as `--repo <url>` with a valid GitHub
URL and a user who would confirm never reaches the configuration code: the
two-argument whitelist in `main` covers only `--token`/`-t`/`-T`, so the
call lands in `main(['--help'])`, prints the help text and exits 0 — the URL
is never validated, no confirmation is prompted (`promptedConfirm` is
false), and the configuration file keeps its previous contents. -/
theorem repo_with_url_arg_prints_help_only :
    mainRun envA stdinGood
        [("--repo"), ("https://github.com/octocat/hello-world")]
        (some slugA) repoA =
      { exitCode := 0, config := some slugA, repo := repoA,
        helpPrinted := true } := by
  decide

/-- C6: whenever the configuration step accepts a URL (its stripped form
matches the repository regex with groups `a`, `b`) and the user confirms,
the slug written is `/a/b` and a subsequent read by the submission workflow
returns exactly that string. -/
theorem slug_write_then_read_roundtrip (env : Env) (stdin : Stdin)
    (cfg : Option String) (r : GitRepo) (arg a b : String)
    (harg : arg ∈ [("-r"), ("--repo"), ("-R")])
    (hmatch : githubUrlMatch (pyStripS stdin.url) = some (a, b))
    (hacc : pyLower stdin.accept ∈ [("y"), ("yes")]) :
    (mainRun env stdin [arg] cfg r).config = some (slugOf a b) ∧
      loadSlug (mainRun env stdin [arg] cfg r).config =
        Except.ok (slugOf a b) := by
  rw [mainRun_repoArg env stdin cfg r arg harg]
  unfold repoConfigUrl
  rw [hmatch]
  simp [hacc, loadSlug]

/-- Witness for C6: configuring `https://github.com/octocat/hello-world`
with answer `YES` stores `/octocat/hello-world`, and reading it back yields
the same string. -/
theorem slug_write_then_read_roundtrip_witness :
    (mainRun envA stdinGood [("-r")] none repoA).config =
        some (slugOf ("octocat") ("hello-world")) ∧
      loadSlug (mainRun envA stdinGood [("-r")] none repoA).config =
        Except.ok (slugOf ("octocat") ("hello-world")) :=
  slug_write_then_read_roundtrip envA stdinGood none repoA ("-r")
    ("octocat") ("hello-world") (by decide) (by decide) (by decide)

/-- C7 (counterexample): the URL `' https://github.com/octocat/hello-world'`
(leading space) does not match the repository regex, yet the configuration
step strips it first, accepts it, and writes the slug — so the claim that
every non-matching URL string is rejected without a write is false. -/
theorem unstripped_url_written_cx :
    githubUrlMatch spacedUrl = none ∧
      (mainRun envA { url := spacedUrl, accept := ("y") } [("-r")] none repoA).config =
        some ("/octocat/hello-world") ∧
      (mainRun envA { url := spacedUrl, accept := ("y") } [("-r")] none repoA).exitCode
        = 0 := by
  decide

/-- C7 (amended): for every URL whose whitespace-stripped form does not match
the repository regex, the configuration step raises the validation
`RuntimeError` (printed, exit code 1) and the configuration file keeps its
previous contents. -/
theorem stripped_unmatched_url_rejected (env : Env) (stdin : Stdin)
    (cfg : Option String) (r : GitRepo) (arg : String)
    (harg : arg ∈ [("-r"), ("--repo"), ("-R")])
    (hmatch : githubUrlMatch (pyStripS stdin.url) = none) :
    (mainRun env stdin [arg] cfg r).exitCode = 1 ∧
      (mainRun env stdin [arg] cfg r).config = cfg ∧
      (mainRun env stdin [arg] cfg r).errorPrinted = true := by
  rw [mainRun_repoArg env stdin cfg r arg harg]
  unfold repoConfigUrl
  rw [hmatch]
  simp

/-- Witness for C7 (amended): a GitLab URL is rejected and the stored
configuration is unchanged. -/
theorem stripped_unmatched_url_rejected_witness :
    (mainRun envA stdinGitlab [("--repo")] (some slugA) repoA).exitCode = 1 ∧
      (mainRun envA stdinGitlab [("--repo")] (some slugA) repoA).config =
        some slugA ∧
      (mainRun envA stdinGitlab [("--repo")] (some slugA) repoA).errorPrinted
        = true :=
  stripped_unmatched_url_rejected envA stdinGitlab (some slugA) repoA
    ("--repo") (by decide) (by decide)

/-- C10: once a URL is accepted, the confirmation check is case-insensitive:
for every answer whose lowercased form is exactly `y` or `yes` the slug is
written (exit code 0), and for every other answer the step raises (exit code
1, error printed) and the configuration file keeps its previous contents. -/
theorem confirmation_case_insensitive (env : Env) (stdin : Stdin)
    (cfg : Option String) (r : GitRepo) (arg a b : String)
    (harg : arg ∈ [("-r"), ("--repo"), ("-R")])
    (hmatch : githubUrlMatch (pyStripS stdin.url) = some (a, b)) :
    (pyLower stdin.accept ∈ [("y"), ("yes")] →
      (mainRun env stdin [arg] cfg r).config = some (slugOf a b) ∧
        (mainRun env stdin [arg] cfg r).exitCode = 0) ∧
      (pyLower stdin.accept ∉ [("y"), ("yes")] →
        (mainRun env stdin [arg] cfg r).exitCode = 1 ∧
          (mainRun env stdin [arg] cfg r).config = cfg ∧
          (mainRun env stdin [arg] cfg r).errorPrinted = true) := by
  rw [mainRun_repoArg env stdin cfg r arg harg]
  unfold repoConfigUrl
  rw [hmatch]
  constructor
  · intro hacc
    simp [hacc]
  · intro hacc
    simp [hacc]

/-- Witness for C10: answer `YES` (uppercase) is accepted and the slug is
written. -/
theorem confirmation_case_insensitive_witness :
    (pyLower stdinGood.accept ∈ [("y"), ("yes")] →
      (mainRun envA stdinGood [("-r")] none repoA).config =
          some (slugOf ("octocat") ("hello-world")) ∧
        (mainRun envA stdinGood [("-r")] none repoA).exitCode = 0) ∧
      (pyLower stdinGood.accept ∉ [("y"), ("yes")] →
        (mainRun envA stdinGood [("-r")] none repoA).exitCode = 1 ∧
          (mainRun envA stdinGood [("-r")] none repoA).config = none ∧
          (mainRun envA stdinGood [("-r")] none repoA).errorPrinted = true) :=
  confirmation_case_insensitive envA stdinGood none repoA ("-r")
    ("octocat") ("hello-world") (by decide) (by decide)

end TryTravisModel
